import Mathlib

/-
Verification of the message routing and relevance engine of the Slack bridge
daemon (src/.puente/puente.py) against its design document.

The Python source is shallowly embedded: pure functions become Lean functions,
dictionaries become association lists or explicit state, optional string
parameters become `String` where the empty string models a Python falsy value
(`None` or `""`, which the source treats identically via `if param:` checks),
and Slack timestamps (decimal strings with microsecond precision) become
rationals.  Character-level operations (`str.lower`, `str.isalnum`) are
modelled with Lean's ASCII `Char` operations, which agree with Python on the
ASCII texts the daemon handles.
-/

namespace Puente

/-- Substring of the source: `reaction.get("users", [])` — a reaction carries
the emoji name and the list of user IDs who applied it. -/
structure Reaction where
  name : String
  users : List String
deriving DecidableEq, Repr

/-- A fetched Slack message as consumed by the filter and the monitoring loop:
`msg.get("timestamp")`, `msg.get("user_id", "")`, `msg.get("text", "")`,
`msg.get("reactions", [])`. -/
structure Message where
  timestamp : ℚ
  user_id : String
  text : String
  reactions : List Reaction
deriving DecidableEq, Repr

/-- Python `str.lower()`, character by character (ASCII). -/
def strLower (s : String) : String :=
  ⟨s.data.map Char.toLower⟩

/-- Check whether `pat` is a prefix of `s` (exact characters). -/
def isPrefixList : List Char → List Char → Bool
  | [], _ => true
  | _ :: _, [] => false
  | a :: as, b :: bs => a == b && isPrefixList as bs

/-- Index of the first occurrence of `pat` in `s`, like Python `str.find`
(restricted to the found case); `none` when `pat` does not occur. -/
def findIdx (pat : List Char) : List Char → Option Nat
  | [] => if pat.isEmpty then some 0 else none
  | c :: rest =>
    if isPrefixList pat (c :: rest) then some 0
    else (findIdx pat rest).map (· + 1)

/-- Python `pat in s` substring test. -/
def containsSub (pat s : String) : Bool :=
  (findIdx pat.data s.data).isSome

/-- The `team_keywords` list of `filter_relevant_messages_for_agent`:
keywords that indicate team-wide relevance. -/
def teamKeywords : List String :=
  ["@here", "@channel", "@everyone",
   "all agents", "team meeting", "system alert",
   "critical", "emergency", "deployment", "outage",
   "maintenance", "daemon restart"]

/-- The `detection_patterns` list built by `filter_relevant_messages_for_agent`
from the agent identifier, the optional friendly agent name and the optional
config bot name (empty string models an absent/falsy Python value). -/
def detection_patterns (agent_identifier friendly_agent_name config_bot_name : String) :
    List String :=
  (if friendly_agent_name ≠ "" then
    ["agent-" ++ strLower friendly_agent_name,
     "@agent-" ++ strLower friendly_agent_name,
     strLower friendly_agent_name,
     "@" ++ strLower friendly_agent_name]
   else []) ++
  ["agent-" ++ strLower agent_identifier,
   "@agent-" ++ strLower agent_identifier,
   "@" ++ strLower agent_identifier] ++
  (if config_bot_name ≠ "" then
    [strLower config_bot_name, "@" ++ strLower config_bot_name]
   else []) ++
  (if strLower agent_identifier ∈ ["red", "blue", "green", "black"] then
    ["@agent " ++ strLower agent_identifier,
     "@agent" ++ strLower agent_identifier,
     "[" ++ strLower agent_identifier ++ "]",
     strLower agent_identifier ++ ":"]
   else [])

/-- One iteration of the pattern loop of `filter_relevant_messages_for_agent`:
the pattern matches the lower-cased text unless its first occurrence is a
false positive — a pattern beginning with `@` whose matched span is
immediately followed by an alphanumeric character or a hyphen. -/
def patternAccepted (pattern text_lower : String) : Bool :=
  match findIdx pattern.data text_lower.data with
  | none => false
  | some pattern_pos =>
    let after_pattern_pos := pattern_pos + pattern.data.length
    if h : after_pattern_pos < text_lower.data.length then
      let next_char := text_lower.data.get ⟨after_pattern_pos, h⟩
      if pattern.data.head? == some '@' && (next_char.isAlphanum || next_char == '-') then
        false
      else true
    else true

/-- Per-message body of the loop in `filter_relevant_messages_for_agent`:
skip the agent's own messages, skip messages the agent already reacted to
(when requested), accept on a team-wide keyword, accept on the platform-native
`<@botUserId>` mention, otherwise accept exactly when some detection pattern
survives the false-positive guard. -/
def message_is_relevant (agent_identifier : String) (exclude_reacted : Bool)
    (bot_user_id friendly_agent_name config_bot_name : String) (msg : Message) : Bool :=
  let text_lower := strLower msg.text
  if bot_user_id ≠ "" ∧ msg.user_id = bot_user_id then false
  else if exclude_reacted ∧ bot_user_id ≠ "" ∧
      msg.reactions.any (fun r => r.users.contains bot_user_id) then false
  else if teamKeywords.any (fun k => containsSub (strLower k) text_lower) then true
  else if bot_user_id ≠ "" ∧ containsSub ("<@" ++ bot_user_id ++ ">") msg.text then true
  else (detection_patterns agent_identifier friendly_agent_name config_bot_name).any
    (fun p => patternAccepted p text_lower)

/-- Embedding of `filter_relevant_messages_for_agent`: keeps, in input order,
exactly the messages relevant to the agent. -/
def filter_relevant_messages_for_agent (messages : List Message)
    (agent_identifier : String) (exclude_reacted : Bool)
    (bot_user_id friendly_agent_name config_bot_name : String) : List Message :=
  messages.filter
    (message_is_relevant agent_identifier exclude_reacted bot_user_id
      friendly_agent_name config_bot_name)

/-- One agent's watermark update in a tick of `SlackDaemon._monitor_and_notify`:
when the fetch returned messages, `latest_ts` is the maximum timestamp among
all fetched messages, and the stored `last_message_timestamp` is replaced by
`latest_ts` only when it exceeds the current value; an empty fetch leaves the
watermark unchanged. -/
def monitorTickWatermark (wm : ℚ) (messages : List Message) : ℚ :=
  match messages with
  | [] => wm
  | m :: rest =>
    let latest_ts := rest.foldl (fun acc msg => max acc msg.timestamp) m.timestamp
    if wm < latest_ts then latest_ts else wm

/-- A sequence of monitoring ticks for one agent: each tick contributes the
batch of messages it fetched, and the watermark is threaded through
`monitorTickWatermark`. -/
def runTicks (wm : ℚ) (batches : List (List Message)) : ℚ :=
  batches.foldl monitorTickWatermark wm

/-- Embedding of `SlackAPIClient._check_rate_limit` for one endpoint category:
prune history entries not strictly newer than sixty seconds before `now`,
deny when the pruned window has reached the per-minute ceiling, otherwise
record `now` and admit.  Returns the admission verdict and the stored
history after the call. -/
def check_rate_limit (per_minute : ℕ) (now : ℚ) (history : List ℚ) : Bool × List ℚ :=
  let pruned := history.filter (fun t => now - 60 < t)
  if per_minute ≤ pruned.length then (false, pruned)
  else (true, pruned ++ [now])

/-- A registry entry of `SlackDaemon.registered_agents`. -/
structure RegisteredAgent where
  opencode_port : ℕ
  last_seen : ℚ
  last_message_timestamp : ℚ
deriving DecidableEq, Repr

/-- Association-list lookup, modelling a Python dict read `d.get(key)`. -/
def alistLookup {α : Type} : List (String × α) → String → Option α
  | [], _ => none
  | (k, v) :: rest, key => if k = key then some v else alistLookup rest key

/-- Association-list write, modelling a Python dict write `d[key] = value`:
replaces the binding in place when the key is present, appends otherwise. -/
def alistInsert {α : Type} (key : String) (value : α) :
    List (String × α) → List (String × α)
  | [] => [(key, value)]
  | (k, v) :: rest =>
    if k = key then (key, value) :: rest else (k, v) :: alistInsert key value rest

/-- Number of bindings for `key` in an association list. -/
def alistCountKey {α : Type} (key : String) (d : List (String × α)) : ℕ :=
  d.countP (fun p => p.1 == key)

/-- Embedding of the `register_agent` handler: reject a missing (falsy)
`agent_color` or `opencode_port` (`0` models a falsy port), reject an
`agent_color` absent from the loaded agent configurations, and otherwise
insert or overwrite the registry entry with `last_seen = now` and
`last_message_timestamp = now - 5`. -/
def register_agent (agent_configs : List String)
    (registered_agents : List (String × RegisteredAgent))
    (agent_color : String) (opencode_port : ℕ) (now : ℚ) :
    Except String (List (String × RegisteredAgent)) :=
  if agent_color = "" then Except.error "agent_color parameter is required"
  else if opencode_port = 0 then Except.error "opencode_port parameter is required"
  else if agent_color ∉ agent_configs then
    Except.error ("Unknown agent color: " ++ agent_color)
  else
    Except.ok (alistInsert agent_color
      ⟨opencode_port, now, now - 5⟩ registered_agents)

/-- Embedding of `SlackDaemon.get_agent_by_identifier`: an identifier resolves
to a color when its lower-cased form is a configured color, else through the
backwards-compatibility name-to-color mapping; a falsy identifier resolves to
nothing. -/
def get_agent_by_identifier (agent_configs : List String)
    (compat_mapping : List (String × String)) (identifier : String) : Option String :=
  if identifier = "" then none
  else if strLower identifier ∈ agent_configs then some (strLower identifier)
  else alistLookup compat_mapping identifier

/-- Embedding of the `get_slack_client` helper of `_register_handlers`:
resolve the identifier to a color and use that color's client when it exists;
otherwise fall back to the first available client; fail only when no client
exists at all.  Clients are identified here by the value stored in the
`slack_clients` dict. -/
def get_slack_client (agent_configs : List String)
    (compat_mapping : List (String × String))
    (slack_clients : List (String × ℕ)) (agent_identifier : String) :
    Except String ℕ :=
  let viaColor : Option ℕ :=
    if agent_identifier ≠ "" then
      match get_agent_by_identifier agent_configs compat_mapping agent_identifier with
      | some color => if color ≠ "" then alistLookup slack_clients color else none
      | none => none
    else none
  match viaColor with
  | some client => Except.ok client
  | none =>
    match slack_clients with
    | [] => Except.error "No Slack client available"
    | (_, client) :: _ => Except.ok client

/-- Outcome of an HTTP handler's parameter stage: a 400 response with a JSON
error body (inner handler not invoked), a 500 response from an exception
raised while the parameter dict was being built, or an invocation of the
registered inner handler with the assembled parameters. -/
inductive Dispatch (α : Type) where
  | badRequest : String → Dispatch α
  | serverError : Dispatch α
  | call : α → Dispatch α
deriving DecidableEq, Repr

/-- HTTP status of a dispatch outcome that did not reach the inner handler;
a `call` means the handler ran and chose the status itself. -/
def Dispatch.isBadRequest {α : Type} : Dispatch α → Bool
  | Dispatch.badRequest _ => true
  | _ => false

/-- Python `int(s)` on a query value, with a default for an absent parameter
(`int(request.query.get("limit", 50))`). -/
def pyInt (s : Option String) (default : ℤ) : Option ℤ :=
  match s with
  | none => some default
  | some str => str.toInt?

/-- Python falsiness of an optional string parameter: absent or empty. -/
def optFalsy : Option String → Bool
  | none => true
  | some s => s = ""

/-- Query-string parameters of GET `/get_relevant_messages` as read by
`HTTPServer._handle_get_relevant_messages`. -/
structure GRMQuery where
  agent_color : Option String
  channel : Option String
  limit : Option String
  since_timestamp : Option String
  exclude_reacted : Option String
deriving DecidableEq, Repr

/-- Parameters forwarded to the `slack.get_relevant_messages` handler. -/
structure GRMParams where
  agent_color : Option String
  channel : Option String
  limit : ℤ
  since_timestamp : Option String
  exclude_reacted : Bool
deriving DecidableEq, Repr

/-- Embedding of `HTTPServer._handle_get_relevant_messages` up to the inner
handler call: building the params dict parses `limit` (an exception is a 500),
then a falsy `agent_color` is answered with a 400 JSON error without invoking
the handler. -/
def handle_get_relevant_messages (q : GRMQuery) : Dispatch GRMParams :=
  match pyInt q.limit 50 with
  | none => Dispatch.serverError
  | some lim =>
    if optFalsy q.agent_color then
      Dispatch.badRequest "agent_color parameter is required"
    else
      Dispatch.call
        ⟨q.agent_color, q.channel, lim, q.since_timestamp,
          strLower (q.exclude_reacted.getD "true") = "true"⟩

/-- Embedding of `HTTPServer._handle_download_file` up to the inner handler
call: only a falsy `file_id` is answered with a 400; `agent_color` is passed
through unchecked. -/
def handle_download_file (agent_color file_id : Option String) :
    Dispatch (Option String × String) :=
  if optFalsy file_id then Dispatch.badRequest "file_id parameter is required"
  else Dispatch.call (agent_color, file_id.getD "")

/-- Embedding of `HTTPServer._handle_delete_file` up to the inner handler
call: a falsy `file_id` in the posted params is answered with a 400. -/
def handle_delete_file (file_id : Option String) : Dispatch String :=
  if optFalsy file_id then Dispatch.badRequest "file_id parameter is required"
  else Dispatch.call (file_id.getD "")

/-- An item of the regular expressions `replace_agent_mentions` builds:
`re.escape(name)` turns every character into a literal (matched
case-insensitively under `re.IGNORECASE`), and each escaped hyphen is then
rewritten into the optional character class `[\s\-]?`. -/
inductive MItem where
  | lit : Char → MItem
  | optHS : MItem
deriving DecidableEq, Repr

/-- Python regex `\s` on ASCII text. -/
def isPySpace (c : Char) : Bool :=
  c == ' ' || c == '\t' || c == '\n' || c == '\r' || c == '\x0b' || c == '\x0c'

/-- Match a mention pattern against a prefix of `s`, returning the unmatched
remainder on success.  The optional class `[\s\-]?` is greedy: it first tries
to consume one whitespace-or-hyphen character and backtracks to consuming
nothing if the rest of the pattern then fails, exactly as Python's engine
does. -/
def matchItems : List MItem → List Char → Option (List Char)
  | [], s => some s
  | MItem.lit _ :: _, [] => none
  | MItem.lit c :: ps, x :: xs =>
    if x.toLower == c.toLower then matchItems ps xs else none
  | MItem.optHS :: ps, [] => matchItems ps []
  | MItem.optHS :: ps, x :: xs =>
    if isPySpace x || x == '-' then
      match matchItems ps xs with
      | some r => some r
      | none => matchItems ps (x :: xs)
    else matchItems ps (x :: xs)

/-- Scan of `re.sub`: at each position try the pattern; on a match emit the
replacement and resume after the matched span, otherwise emit the character
and advance.  The fuel argument (instantiated with the text length) only
serves structural termination; every pattern used here starts with a literal
`@` and hence consumes at least one character per match, so the fuel is never
exhausted before the text. -/
def subAllAux : ℕ → List MItem → List Char → List Char → List Char
  | 0, _, _, s => s
  | _, _, _, [] => []
  | fuel + 1, pat, repl, x :: xs =>
    match matchItems pat (x :: xs) with
    | some rest => repl ++ subAllAux fuel pat repl rest
    | none => x :: subAllAux fuel pat repl xs

/-- Python `re.sub(pattern, repl, s, flags=re.IGNORECASE)` for a mention
pattern. -/
def subAll (pat : List MItem) (repl : List Char) (s : List Char) : List Char :=
  subAllAux s.length pat repl s

/-- The compiled pattern for one mention form: a literal `@` followed by the
name with every hyphen relaxed to the optional class `[\s\-]?`. -/
def mentionRegexItems (name : String) : List MItem :=
  MItem.lit '@' :: name.data.map (fun c => if c = '-' then MItem.optHS else MItem.lit c)

/-- One agent's entry in the `agent_configs` dict as used by
`replace_agent_mentions`: `config.get("name", "")` and
`config.get("bot_user_id", "")`. -/
structure AgentCfg where
  name : String
  bot_user_id : String
deriving DecidableEq, Repr

/-- Embedding of `replace_agent_mentions`: for every configured agent with a
known platform user ID, substitute `<@USERID>` for every case-insensitive
occurrence of `@name` (when a name is configured) and of `@agent-color`,
with hyphens tolerated as an optional whitespace or hyphen. -/
def replace_agent_mentions (text : String)
    (agent_configs : List (String × AgentCfg)) : String :=
  agent_configs.foldl
    (fun t p =>
      if p.2.bot_user_id ≠ "" then
        let repl := "<@" ++ p.2.bot_user_id ++ ">"
        let t1 :=
          if p.2.name ≠ "" then
            String.mk (subAll (mentionRegexItems p.2.name) repl.data t.data)
          else t
        String.mk (subAll (mentionRegexItems ("agent-" ++ p.1)) repl.data t1.data)
      else t)
    text

/-- The mention patterns a directory gives rise to, in application order. -/
def cfgRegexList (agent_configs : List (String × AgentCfg)) : List (List MItem) :=
  agent_configs.foldr
    (fun p acc =>
      if p.2.bot_user_id ≠ "" then
        (if p.2.name ≠ "" then [mentionRegexItems p.2.name] else []) ++
          mentionRegexItems ("agent-" ++ p.1) :: acc
      else acc)
    []

/-- Decidable check that a mention pattern matches at no position of `s`
(positions beyond the end behave like the empty-suffix position, which the
range covers). -/
def noMatchAnywhere (pat : List MItem) (s : String) : Bool :=
  (List.range (s.data.length + 1)).all (fun n => (matchItems pat (s.data.drop n)).isNone)

/-! Helper lemmas. -/

theorem strMk_data (s : String) : String.mk s.data = s := by
  cases s
  rfl

theorem le_foldl_max (l : List ℚ) (a : ℚ) : a ≤ l.foldl max a := by
  induction l generalizing a with
  | nil => exact le_refl a
  | cons b l ih => exact le_trans (le_max_left a b) (ih (max a b))

theorem foldl_max_comm (l : List ℚ) (t wm : ℚ) :
    max wm (l.foldl max t) = l.foldl max (max wm t) := by
  induction l generalizing t wm with
  | nil => rfl
  | cons a l ih =>
    show max wm (l.foldl max (max t a)) = l.foldl max (max (max wm t) a)
    rw [ih, max_assoc]

theorem monitorTickWatermark_eq_foldl (wm : ℚ) (messages : List Message) :
    monitorTickWatermark wm messages = (messages.map Message.timestamp).foldl max wm := by
  cases messages with
  | nil => rfl
  | cons m rest =>
    show (if wm < rest.foldl (fun acc msg => max acc msg.timestamp) m.timestamp then
        rest.foldl (fun acc msg => max acc msg.timestamp) m.timestamp else wm) =
      ((m :: rest).map Message.timestamp).foldl max wm
    have hmap : rest.foldl (fun acc msg => max acc msg.timestamp) m.timestamp =
        (rest.map Message.timestamp).foldl max m.timestamp :=
      (List.foldl_map Message.timestamp max rest m.timestamp).symm
    rw [hmap, List.map_cons, List.foldl_cons, ← foldl_max_comm]
    by_cases h : wm < (rest.map Message.timestamp).foldl max m.timestamp
    · rw [if_pos h, max_eq_right h.le]
    · rw [if_neg h, max_eq_left (le_of_not_lt h)]

theorem runTicks_eq_foldl (wm : ℚ) (batches : List (List Message)) :
    runTicks wm batches = (batches.flatten.map Message.timestamp).foldl max wm := by
  induction batches generalizing wm with
  | nil => rfl
  | cons b bs ih =>
    show runTicks (monitorTickWatermark wm b) bs =
      ((b :: bs).flatten.map Message.timestamp).foldl max wm
    rw [ih, List.flatten_cons, List.map_append, List.foldl_append,
      monitorTickWatermark_eq_foldl]

/-! Claim theorems. -/

/-- C1 (confirmed): one monitoring tick maps the watermark and the fetched
batch to the pointwise maximum of the old watermark and every fetched
message's timestamp — so it is unchanged on an empty fetch and equals
`max (old, max fetched timestamp)` on a non-empty one — and over any
sequence of ticks the watermark never decreases and equals the maximum of
its initial value and all fetched timestamps seen. -/
theorem c1_watermark_monotonicity (wm : ℚ) (fetched : List Message)
    (m : Message) (rest : List Message) (batches : List (List Message)) :
    monitorTickWatermark wm [] = wm ∧
    monitorTickWatermark wm (m :: rest) =
      max wm ((rest.map Message.timestamp).foldl max m.timestamp) ∧
    monitorTickWatermark wm fetched = (fetched.map Message.timestamp).foldl max wm ∧
    wm ≤ monitorTickWatermark wm fetched ∧
    wm ≤ runTicks wm batches ∧
    runTicks wm batches = (batches.flatten.map Message.timestamp).foldl max wm := by
  refine ⟨rfl, ?_, monitorTickWatermark_eq_foldl wm fetched, ?_, ?_, runTicks_eq_foldl wm batches⟩
  · rw [monitorTickWatermark_eq_foldl, List.map_cons, List.foldl_cons, ← foldl_max_comm]
  · rw [monitorTickWatermark_eq_foldl]
    exact le_foldl_max _ wm
  · rw [runTicks_eq_foldl]
    exact le_foldl_max _ wm

/-- C2 (confirmed): when the filtering agent's bot user ID is provided
(non-empty), every message whose sender ID equals that bot user ID is absent
from the output of `filter_relevant_messages_for_agent`, whatever its text,
reactions or the other parameters. -/
theorem c2_own_message_exclusion (messages : List Message)
    (agent_identifier : String) (exclude_reacted : Bool)
    (bot_user_id friendly_agent_name config_bot_name : String) (m : Message)
    (hbot : bot_user_id ≠ "") (hm : m.user_id = bot_user_id) :
    m ∉ filter_relevant_messages_for_agent messages agent_identifier
      exclude_reacted bot_user_id friendly_agent_name config_bot_name := by
  intro hmem
  rw [filter_relevant_messages_for_agent, List.mem_filter] at hmem
  have hrel := hmem.2
  rw [message_is_relevant] at hrel
  simp only [if_pos (And.intro hbot hm)] at hrel
  exact Bool.false_ne_true hrel

/-- Witness for C2: a concrete message sent by the bot itself is dropped. -/
theorem c2_own_message_exclusion_witness :
    ("UREDBOT" : String) ≠ "" ∧
      (Message.mk 1 "UREDBOT" "@red hello" []).user_id = "UREDBOT" ∧
      Message.mk 1 "UREDBOT" "@red hello" [] ∉
        filter_relevant_messages_for_agent [Message.mk 1 "UREDBOT" "@red hello" []]
          "red" true "UREDBOT" "" "" :=
  ⟨by decide, by decide,
    c2_own_message_exclusion [Message.mk 1 "UREDBOT" "@red hello" []] "red" true
      "UREDBOT" "" "" (Message.mk 1 "UREDBOT" "@red hello" []) (by decide) (by decide)⟩

/-- C3 counterexample: for agent "red" (no friendly name, no configured bot
name), the message "@agent-redteam" from another user IS included in the
filter output, contradicting the claim that it must be rejected: the
false-positive guard only applies to patterns beginning with `@`, and the
non-`@` pattern "agent-red" matches inside "@agent-redteam". -/
theorem c3_redteam_counterexample :
    filter_relevant_messages_for_agent
      [Message.mk 1 "UHUMAN" "@agent-redteam" []] "red" true "UREDBOT" "" "" =
      [Message.mk 1 "UHUMAN" "@agent-redteam" []] := by decide

/-- C3 (corrected): on the text "@agent-redteam" the `@`-prefixed patterns
"@agent-red" and "@red" are indeed rejected or absent exactly as the
false-positive guard describes, but the guard does not extend to patterns
without a leading `@`: "agent-red" matches (followed by the alphanumeric
character t and not subject to the guard), so the message is included. -/
theorem c3_redteam_amended :
    patternAccepted "@agent-red" (strLower "@agent-redteam") = false ∧
    patternAccepted "@red" (strLower "@agent-redteam") = false ∧
    patternAccepted "agent-red" (strLower "@agent-redteam") = true ∧
    "@agent-red" ∈ detection_patterns "red" "" "" ∧
    "agent-red" ∈ detection_patterns "red" "" "" ∧
    filter_relevant_messages_for_agent
      [Message.mk 1 "UHUMAN" "@agent-redteam" []] "red" true "UREDBOT" "" "" =
      [Message.mk 1 "UHUMAN" "@agent-redteam" []] := by decide

/-- C4 (confirmed): a message that is not the agent's own and is not excluded
by the already-reacted rule is included in the filter output whenever its
lower-cased text contains a team-wide keyword, for every agent identity and
whether or not any agent-specific pattern matches. -/
theorem c4_team_keyword_acceptance (messages : List Message)
    (agent_identifier : String) (exclude_reacted : Bool)
    (bot_user_id friendly_agent_name config_bot_name : String) (m : Message)
    (hmem : m ∈ messages)
    (hown : ¬(bot_user_id ≠ "" ∧ m.user_id = bot_user_id))
    (hreacted : ¬(exclude_reacted = true ∧ bot_user_id ≠ "" ∧
      m.reactions.any (fun r => r.users.contains bot_user_id) = true))
    (hkw : teamKeywords.any (fun k => containsSub (strLower k) (strLower m.text)) = true) :
    m ∈ filter_relevant_messages_for_agent messages agent_identifier
      exclude_reacted bot_user_id friendly_agent_name config_bot_name := by
  rw [filter_relevant_messages_for_agent, List.mem_filter]
  refine ⟨hmem, ?_⟩
  rw [message_is_relevant]
  simp only [if_neg hown, if_neg hreacted, if_pos hkw]

/-- Witness for C4: a message containing "@channel" from a stranger is
delivered to an agent named by no pattern in the text. -/
theorem c4_team_keyword_acceptance_witness :
    Message.mk 3 "UHUMAN" "@channel server down" [] ∈
        [Message.mk 3 "UHUMAN" "@channel server down" []] ∧
      ¬(("UPURP" : String) ≠ "" ∧
        (Message.mk 3 "UHUMAN" "@channel server down" []).user_id = "UPURP") ∧
      teamKeywords.any (fun k => containsSub (strLower k)
        (strLower (Message.mk 3 "UHUMAN" "@channel server down" []).text)) = true ∧
      Message.mk 3 "UHUMAN" "@channel server down" [] ∈
        filter_relevant_messages_for_agent
          [Message.mk 3 "UHUMAN" "@channel server down" []] "purple" true "UPURP" "" "" :=
  ⟨by decide, by decide, by decide,
    c4_team_keyword_acceptance [Message.mk 3 "UHUMAN" "@channel server down" []]
      "purple" true "UPURP" "" "" (Message.mk 3 "UHUMAN" "@channel server down" [])
      (by decide) (by decide) (by decide) (by decide)⟩

/-- C10 (confirmed): with an absent (empty) bot user ID the own-message rule
and the already-reacted rule are both skipped — the filter output does not
depend on `exclude_reacted` at all, and a message that the agent itself sent
and already reacted to appears in the output (while the same message is
dropped once the bot user ID is supplied). -/
theorem c10_absent_bot_user_id :
    (∀ (messages : List Message) (agent_identifier : String)
        (friendly_agent_name config_bot_name : String) (er er' : Bool),
      filter_relevant_messages_for_agent messages agent_identifier er ""
          friendly_agent_name config_bot_name =
        filter_relevant_messages_for_agent messages agent_identifier er' ""
          friendly_agent_name config_bot_name) ∧
    filter_relevant_messages_for_agent
      [Message.mk 2 "USELF" "@red please review" [Reaction.mk "eyes" ["USELF"]]]
      "red" true "" "" "" =
      [Message.mk 2 "USELF" "@red please review" [Reaction.mk "eyes" ["USELF"]]] ∧
    filter_relevant_messages_for_agent
      [Message.mk 2 "USELF" "@red please review" [Reaction.mk "eyes" ["USELF"]]]
      "red" true "USELF" "" "" = [] := by
  refine ⟨?_, by decide, by decide⟩
  intro messages agent_identifier friendly_agent_name config_bot_name er er'
  rw [filter_relevant_messages_for_agent, filter_relevant_messages_for_agent]
  apply List.filter_congr
  intro m _
  rw [message_is_relevant, message_is_relevant]
  simp

theorem alistLookup_insert_self {α : Type} (d : List (String × α)) (k : String) (v : α) :
    alistLookup (alistInsert k v d) k = some v := by
  induction d with
  | nil => simp [alistInsert, alistLookup]
  | cons p rest ih =>
    by_cases h : p.1 = k
    · simp [alistInsert, h, alistLookup]
    · simp [alistInsert, h, alistLookup, ih]

theorem alistLookup_insert_ne {α : Type} (d : List (String × α)) (k : String) (v : α)
    (c : String) (hc : c ≠ k) :
    alistLookup (alistInsert k v d) c = alistLookup d c := by
  induction d with
  | nil =>
    simp only [alistInsert, alistLookup]
    exact if_neg fun h => hc h.symm
  | cons p rest ih =>
    by_cases h : p.1 = k
    · simp only [alistInsert, if_pos h, alistLookup]
      rw [if_neg (fun hkc => hc hkc.symm), if_neg (fun hpc => hc (h ▸ hpc).symm)]
    · simp only [alistInsert, if_neg h, alistLookup, ih]

theorem alistCountKey_insert {α : Type} (d : List (String × α)) (k : String) (v : α)
    (hd : alistCountKey k d ≤ 1) :
    alistCountKey k (alistInsert k v d) = 1 := by
  induction d with
  | nil => simp [alistInsert, alistCountKey]
  | cons p rest ih =>
    by_cases h : p.1 = k
    · rw [alistCountKey, List.countP_cons] at hd
      simp only [h, beq_self_eq_true, if_pos] at hd
      have hrest : rest.countP (fun p => p.1 == k) = 0 := by omega
      simp [alistInsert, h, alistCountKey, List.countP_cons, hrest]
    · rw [alistCountKey, List.countP_cons] at hd
      simp only [beq_iff_eq, h, if_neg, Nat.add_zero, if_false] at hd
      have := ih hd
      rw [alistCountKey] at this
      simp [alistInsert, h, alistCountKey, List.countP_cons, this]

/-- C5 (confirmed): with both parameters present, `register_agent` fails
exactly when the agent color is absent from the loaded configuration; on
success it inserts or overwrites the single registry entry for that color,
leaving exactly one binding for the color, with the watermark initialised to
`now - 5` and the last-seen time to `now`, and every other color's binding
untouched. -/
theorem c5_register_agent_semantics (agent_configs : List String)
    (registered : List (String × RegisteredAgent)) (agent_color : String)
    (opencode_port : ℕ) (now : ℚ)
    (hcolor : agent_color ≠ "") (hport : opencode_port ≠ 0)
    (hdict : alistCountKey agent_color registered ≤ 1) :
    ((∃ e, register_agent agent_configs registered agent_color opencode_port now =
        Except.error e) ↔ agent_color ∉ agent_configs) ∧
    (agent_color ∈ agent_configs →
      register_agent agent_configs registered agent_color opencode_port now =
        Except.ok (alistInsert agent_color
          ⟨opencode_port, now, now - 5⟩ registered) ∧
      alistLookup (alistInsert agent_color
          (RegisteredAgent.mk opencode_port now (now - 5)) registered) agent_color =
        some ⟨opencode_port, now, now - 5⟩ ∧
      alistCountKey agent_color (alistInsert agent_color
          (RegisteredAgent.mk opencode_port now (now - 5)) registered) = 1 ∧
      ∀ c, c ≠ agent_color →
        alistLookup (alistInsert agent_color
            (RegisteredAgent.mk opencode_port now (now - 5)) registered) c =
          alistLookup registered c) := by
  rw [register_agent, if_neg hcolor, if_neg hport]
  by_cases hmem : agent_color ∈ agent_configs
  · rw [if_neg (not_not_intro hmem)]
    refine ⟨⟨fun ⟨e, he⟩ => absurd he (by simp), fun h => absurd hmem h⟩, fun _ => ?_⟩
    exact ⟨rfl, alistLookup_insert_self registered agent_color _,
      alistCountKey_insert registered agent_color _ hdict,
      fun c hc => alistLookup_insert_ne registered agent_color _ c hc⟩
  · rw [if_pos hmem]
    exact ⟨⟨fun _ => hmem, fun _ => ⟨_, rfl⟩⟩, fun h => absurd h hmem⟩

/-- Witness for C5: registering "red" on port 4096 at time 100 succeeds and
stores the watermark 95. -/
theorem c5_register_agent_semantics_witness :
    ("red" : String) ≠ "" ∧ (4096 : ℕ) ≠ 0 ∧
      alistCountKey "red" ([] : List (String × RegisteredAgent)) ≤ 1 ∧
      register_agent ["red"] [] "red" 4096 100 =
        Except.ok (alistInsert "red" ⟨4096, 100, 100 - 5⟩ []) :=
  ⟨by decide, by decide, by decide,
    ((c5_register_agent_semantics ["red"] [] "red" 4096 100 (by decide) (by decide)
      (by decide)).2 (by decide)).1⟩

/-- C6 (confirmed): admission prunes every recorded timestamp not strictly
newer than sixty seconds before now and admits (recording now) exactly when
the pruned window is below the per-minute ceiling; with ceiling 3, four
calls at t = 0 admit the first three and deny the fourth, which stays denied
(with the window unchanged) at every instant before sixty seconds have
passed and is admitted at t = 60. -/
theorem c6_rate_limiter_admission (per_minute : ℕ) (now : ℚ) (history : List ℚ)
    (t : ℚ) (ht0 : 0 ≤ t) (ht : t < 60) :
    ((check_rate_limit per_minute now history).1 = true ↔
      (history.filter (fun x => now - 60 < x)).length < per_minute) ∧
    ((check_rate_limit per_minute now history).1 = true →
      (check_rate_limit per_minute now history).2 =
        history.filter (fun x => now - 60 < x) ++ [now]) ∧
    ((check_rate_limit per_minute now history).1 = false →
      (check_rate_limit per_minute now history).2 =
        history.filter (fun x => now - 60 < x)) ∧
    check_rate_limit 3 0 [] = (true, [0]) ∧
    check_rate_limit 3 0 [0] = (true, [0, 0]) ∧
    check_rate_limit 3 0 [0, 0] = (true, [0, 0, 0]) ∧
    check_rate_limit 3 0 [0, 0, 0] = (false, [0, 0, 0]) ∧
    (check_rate_limit 3 t [0, 0, 0]).1 = false ∧
    (check_rate_limit 3 t [0, 0, 0]).2 = [0, 0, 0] ∧
    (check_rate_limit 3 60 [0, 0, 0]).1 = true := by
  have hkeep : t - 60 < 0 := by linarith
  refine ⟨?_, ?_, ?_, by norm_num [check_rate_limit], by norm_num [check_rate_limit],
    by norm_num [check_rate_limit], by norm_num [check_rate_limit],
    by simp [check_rate_limit, hkeep], by simp [check_rate_limit, hkeep],
    by norm_num [check_rate_limit]⟩
  · rw [check_rate_limit]
    split
    · next h => simpa using Nat.not_lt.mpr h
    · next h => simpa using Nat.not_le.mp h
  · rw [check_rate_limit]
    split
    · simp
    · simp
  · rw [check_rate_limit]
    split
    · simp
    · simp

/-- Witness for C6: at t = 30 the fourth call is still denied. -/
theorem c6_rate_limiter_admission_witness :
    (0 : ℚ) ≤ 30 ∧ (30 : ℚ) < 60 ∧ (check_rate_limit 3 30 [0, 0, 0]).1 = false :=
  ⟨by decide, by decide,
    (c6_rate_limiter_admission 3 0 [] 30 (by decide) (by decide)).2.2.2.2.2.2.2.1⟩

/-- C7 counterexample: with "red" the only configured agent and the only
client, a request naming the unrecognised identifier "purple" is NOT answered
with an error — `get_slack_client` serves it with red's client. -/
theorem c7_unknown_agent_counterexample :
    get_agent_by_identifier ["red"] [] "purple" = none ∧
    get_slack_client ["red"] [] [("red", 7)] "purple" = Except.ok 7 :=
  ⟨rfl, rfl⟩

/-- C7 (corrected): Gateway operations that resolve their client through
`get_slack_client` do not fail on an identifier absent from the
configuration: whenever any client exists they fall back to the first
available client (another agent's), and the error is raised only when no
client exists at all.  Only `register_agent` rejects an unknown color. -/
theorem c7_unknown_agent_amended (agent_configs : List String)
    (compat_mapping : List (String × String)) (clients : List (String × ℕ))
    (agent_identifier : String) (c0 : String × ℕ) (rest : List (String × ℕ))
    (hclients : clients = c0 :: rest)
    (hunknown : get_agent_by_identifier agent_configs compat_mapping
      agent_identifier = none) :
    get_slack_client agent_configs compat_mapping clients agent_identifier =
      Except.ok c0.2 ∧
    get_slack_client agent_configs compat_mapping [] agent_identifier =
      Except.error "No Slack client available" := by
  constructor
  · rw [hclients]
    simp only [get_slack_client, hunknown, ite_self]
  · simp only [get_slack_client, hunknown, ite_self]

/-- Witness for C7: serving "purple" with red's client. -/
theorem c7_unknown_agent_amended_witness :
    ([("red", 7)] : List (String × ℕ)) = ("red", 7) :: [] ∧
      get_agent_by_identifier ["red"] [] "purple" = none ∧
      get_slack_client ["red"] [] [("red", 7)] "purple" =
        Except.ok (("red", 7) : String × ℕ).2 :=
  ⟨rfl, rfl,
    (c7_unknown_agent_amended ["red"] [] [("red", 7)] "purple" ("red", 7) []
      rfl rfl).1⟩

/-- C8 counterexample: a GET `/download_file` request that lacks `agent_color`
but carries a `file_id` is not answered with a 400 — the inner handler is
invoked: the 400 check of `_handle_download_file` is on `file_id`, not on
`agent_color`. -/
theorem c8_download_file_counterexample :
    handle_download_file none (some "F123") = Dispatch.call (none, "F123") ∧
    (handle_download_file none (some "F123")).isBadRequest = false := by
  exact ⟨rfl, rfl⟩

/-- C8 (corrected): a GET `/get_relevant_messages` request without
`agent_color` (whose `limit`, if present, parses) and a POST `/delete_file`
request without `file_id` are answered with a 400 JSON error without invoking
the handler; for GET `/download_file` the 400 guards a missing `file_id`
rather than a missing `agent_color` — with `file_id` present the handler is
invoked even when `agent_color` is absent. -/
theorem c8_param_rejection_amended (q : GRMQuery) (ac fid : Option String)
    (fid2 : String)
    (hq : optFalsy q.agent_color = true) (hlim : (pyInt q.limit 50).isSome = true)
    (hfid : optFalsy fid = true) (hfid2 : fid2 ≠ "") :
    handle_get_relevant_messages q =
      Dispatch.badRequest "agent_color parameter is required" ∧
    (handle_get_relevant_messages q).isBadRequest = true ∧
    handle_download_file ac fid =
      Dispatch.badRequest "file_id parameter is required" ∧
    handle_delete_file fid =
      Dispatch.badRequest "file_id parameter is required" ∧
    handle_download_file ac (some fid2) = Dispatch.call (ac, fid2) := by
  obtain ⟨lim, hl⟩ := Option.isSome_iff_exists.mp hlim
  have hgrm : handle_get_relevant_messages q =
      Dispatch.badRequest "agent_color parameter is required" := by
    simp only [handle_get_relevant_messages, hl]
    rw [if_pos hq]
  have hns : ¬optFalsy (some fid2) = true := by simp [optFalsy, hfid2]
  refine ⟨hgrm, by rw [hgrm]; rfl, ?_, ?_, ?_⟩
  · rw [handle_download_file, if_pos hfid]
  · rw [handle_delete_file, if_pos hfid]
  · rw [handle_download_file, if_neg hns]
    rfl

/-- Witness for C8: the empty query is a 400 while a lone file id reaches the
download handler. -/
theorem c8_param_rejection_amended_witness :
    optFalsy (GRMQuery.mk none none none none none).agent_color = true ∧
      (pyInt (GRMQuery.mk none none none none none).limit 50).isSome = true ∧
      optFalsy (none : Option String) = true ∧ ("F123" : String) ≠ "" ∧
      handle_get_relevant_messages (GRMQuery.mk none none none none none) =
        Dispatch.badRequest "agent_color parameter is required" :=
  ⟨by decide, by decide, by decide, by decide,
    (c8_param_rejection_amended (GRMQuery.mk none none none none none) none none
      "F123" (by decide) (by decide) (by decide) (by decide)).1⟩

theorem cfgRegexList_cons (p : String × AgentCfg) (rest : List (String × AgentCfg)) :
    cfgRegexList (p :: rest) =
      (if p.2.bot_user_id ≠ "" then
        (if p.2.name ≠ "" then [mentionRegexItems p.2.name] else []) ++
          mentionRegexItems ("agent-" ++ p.1) :: cfgRegexList rest
       else cfgRegexList rest) := rfl

theorem replace_agent_mentions_cons (text : String) (p : String × AgentCfg)
    (rest : List (String × AgentCfg)) :
    replace_agent_mentions text (p :: rest) =
      replace_agent_mentions
        (if p.2.bot_user_id ≠ "" then
          String.mk (subAll (mentionRegexItems ("agent-" ++ p.1))
            ("<@" ++ p.2.bot_user_id ++ ">").data
            (if p.2.name ≠ "" then
              String.mk (subAll (mentionRegexItems p.2.name)
                ("<@" ++ p.2.bot_user_id ++ ">").data text.data)
             else text).data)
         else text) rest := rfl

theorem noMatchAnywhere_spec (pat : List MItem) (s : String)
    (h : noMatchAnywhere pat s = true) :
    ∀ n, matchItems pat (s.data.drop n) = none := by
  rw [noMatchAnywhere, List.all_eq_true] at h
  intro n
  by_cases hn : n < s.data.length + 1
  · have hx := h n (List.mem_range.mpr hn)
    exact Option.isNone_iff_eq_none.mp (by simpa using hx)
  · have hlen := h s.data.length (List.mem_range.mpr (Nat.lt_succ_self _))
    have h2 : s.data.drop s.data.length = [] := by simp
    have h1 : s.data.drop n = [] := List.drop_eq_nil_of_le (by omega)
    rw [h1]
    rw [h2] at hlen
    exact Option.isNone_iff_eq_none.mp (by simpa using hlen)

theorem subAllAux_id (pat : List MItem) (repl : List Char) :
    ∀ (fuel : ℕ) (s : List Char),
    (∀ n, matchItems pat (s.drop n) = none) →
    subAllAux fuel pat repl s = s := by
  intro fuel
  induction fuel with
  | zero => intro s _; cases s <;> rfl
  | succ fuel ih =>
    intro s h
    cases s with
    | nil => rfl
    | cons x xs =>
      have h0 : matchItems pat (x :: xs) = none := by simpa using h 0
      simp only [subAllAux, h0]
      rw [ih xs]
      intro n
      simpa using h (n + 1)

theorem replace_agent_mentions_id (agent_configs : List (String × AgentCfg)) :
    ∀ text : String,
    (∀ pat ∈ cfgRegexList agent_configs, noMatchAnywhere pat text = true) →
    replace_agent_mentions text agent_configs = text := by
  induction agent_configs with
  | nil => intro text _; rfl
  | cons p rest ih =>
    intro text h
    by_cases huid : p.2.bot_user_id ≠ ""
    · have hcolor : String.mk (subAll (mentionRegexItems ("agent-" ++ p.1))
          ("<@" ++ p.2.bot_user_id ++ ">").data text.data) = text := by
        rw [subAll, subAllAux_id, strMk_data]
        exact noMatchAnywhere_spec _ _
          (h _ (by rw [cfgRegexList_cons, if_pos huid]; simp))
      have hname : (if p.2.name ≠ "" then
          String.mk (subAll (mentionRegexItems p.2.name)
            ("<@" ++ p.2.bot_user_id ++ ">").data text.data)
          else text) = text := by
        by_cases hn : p.2.name ≠ ""
        · rw [if_pos hn, subAll, subAllAux_id, strMk_data]
          exact noMatchAnywhere_spec _ _
            (h _ (by rw [cfgRegexList_cons, if_pos huid, if_pos hn]; simp))
        · rw [if_neg hn]
      rw [replace_agent_mentions_cons, if_pos huid, hname, hcolor]
      refine ih text fun pat hpat => h pat ?_
      rw [cfgRegexList_cons, if_pos huid]
      simp only [List.mem_append, List.mem_cons]
      exact Or.inr (Or.inr hpat)
    · rw [replace_agent_mentions_cons, if_neg huid]
      refine ih text fun pat hpat => h pat ?_
      rw [cfgRegexList_cons, if_neg huid]
      exact hpat

/-- C9 counterexample: `replace_agent_mentions` is not idempotent for every
agent directory — with a bot user ID that itself spells an agent mention,
the substituted token "<@AGENT-RED>" is matched and wrapped again by the
second pass. -/
theorem c9_idempotence_counterexample :
    replace_agent_mentions
        (replace_agent_mentions "@agent-red" [("red", AgentCfg.mk "" "AGENT-RED")])
        [("red", AgentCfg.mk "" "AGENT-RED")] ≠
      replace_agent_mentions "@agent-red" [("red", AgentCfg.mk "" "AGENT-RED")] := by
  decide

/-- C9 (corrected): a second application of `replace_agent_mentions` leaves
its own output unchanged whenever that output no longer matches any of the
directory's mention patterns — in particular for directories whose user IDs
do not themselves spell agent mentions, so already-substituted `<@USERID>`
tokens are not wrapped again; unrestricted idempotence fails when a bot user
ID itself matches a mention pattern. -/
theorem c9_idempotence_amended (text : String)
    (agent_configs : List (String × AgentCfg))
    (h : ∀ pat ∈ cfgRegexList agent_configs,
      noMatchAnywhere pat (replace_agent_mentions text agent_configs) = true) :
    replace_agent_mentions (replace_agent_mentions text agent_configs)
        agent_configs =
      replace_agent_mentions text agent_configs :=
  replace_agent_mentions_id agent_configs
    (replace_agent_mentions text agent_configs) h

/-- Witness for C9: a realistic directory, where the rewritten text admits no
further mention match and the rewrite is idempotent. -/
theorem c9_idempotence_amended_witness :
    (∀ pat ∈ cfgRegexList [("red", AgentCfg.mk "" "U123")],
      noMatchAnywhere pat
        (replace_agent_mentions "@agent-red please"
          [("red", AgentCfg.mk "" "U123")]) = true) ∧
    replace_agent_mentions
        (replace_agent_mentions "@agent-red please"
          [("red", AgentCfg.mk "" "U123")])
        [("red", AgentCfg.mk "" "U123")] =
      replace_agent_mentions "@agent-red please" [("red", AgentCfg.mk "" "U123")] :=
  ⟨by decide,
    c9_idempotence_amended "@agent-red please" [("red", AgentCfg.mk "" "U123")]
      (by decide)⟩

end Puente
